import Mathlib

/-!
Shallow embedding of the client-side voice-interaction engine in
`src/frontend/app.js` (EmiBrigante/ai-chatbots), and proofs about it.

The JavaScript program is single-threaded and event-driven: every function
mutates one global `state` object.  We embed it as pure functions
`AppState → AppState`.  DOM/log presentation (volume bar width, log lines,
status text strings, processing-time display) is not part of the model;
observable state that the specification talks about (transcript text,
response text, streaming badges, status, record-button enablement, the audio
queue, the VAD fields, the WebSocket reference) is.  Externally visible
effects are recorded in instrumentation fields:

  * `outbound`      : the outbound `audio` request messages actually sent
                      (identified by request number);
  * `settles`       : each settlement of a pending pipeline promise, with its
                      request number and outcome (`true` = resolve(true));
  * `plays`         : each playback attempt started by `AudioQueue.playNext`;
  * `created`       : how many `new WebSocket(...)` constructions have run;
  * `framesRequested` : how many `requestAnimationFrame` calls have run;
  * `pipelineRuns`  : how many times `Pipeline.run` has been invoked;
  * `runRejected`   : run invocations that rejected in their catch block.
-/

namespace VoiceApp

/-- CONFIG.VAD from `app.js` lines 29-34. -/
structure VadConfig where
  volumeThreshold : Nat
  silenceTimeout : Nat
  minSpeechDuration : Nat
  minAudioSize : Nat
  deriving Repr, DecidableEq

/-- The concrete configuration values of `app.js`. -/
def CONFIG : VadConfig :=
  { volumeThreshold := 15
    silenceTimeout := 1000
    minSpeechDuration := 300
    minAudioSize := 1000 }

/-- The STATUS constants (`ready` / `recording` / `processing`). -/
inductive Status where
  | ready
  | recording
  | processing
  deriving Repr, DecidableEq

/-- Ready state of the platform WebSocket: CONNECTING before `onopen`,
OPEN afterwards.  (CLOSED sockets are represented by `state.websocket = none`,
as `onclose` nulls the reference.) -/
inductive ReadyState where
  | connecting
  | opened
  deriving Repr, DecidableEq

/-- A platform WebSocket object: its construction number and ready state. -/
structure WSocket where
  id : Nat
  ready : ReadyState
  deriving Repr, DecidableEq

/-- A MediaRecorder's state string: `inactive` or `recording`. -/
inductive RecorderState where
  | inactive
  | recording
  deriving Repr, DecidableEq

/-- An element of `state.audio.queue`: `{ url, index, sentence }` pushed by
`AudioQueue.add` (the object URL is represented by the base64 payload it was
decoded from). -/
structure Chunk where
  url : String
  index : Nat
  sentence : String
  deriving Repr, DecidableEq

/-- `state.audio` (lines 63-67). -/
structure AudioState where
  queue : List Chunk
  isPlaying : Bool
  currentIndex : Nat
  deriving Repr, DecidableEq

/-- `state.vad` (lines 70-82).  Captured audio chunks are represented by
their byte sizes (the payload bytes are opaque device data); platform
resources (stream, audioContext, analyser) are represented by
`Option Nat` handles — `none` is JavaScript `null`. -/
structure VadState where
  isEnabled : Bool
  isProcessing : Bool
  isSpeaking : Bool
  silenceStart : Option Nat
  speechStart : Option Nat
  stream : Option Nat
  mediaRecorder : Option RecorderState
  audioChunks : List Nat
  audioContext : Option Nat
  analyser : Option Nat
  animationFrame : Option Nat
  deriving Repr, DecidableEq

/-- `state.recording` (lines 54-60): the manual-mode recorder. -/
structure RecordingState where
  mediaRecorder : Option RecorderState
  chunks : List Nat
  isActive : Bool
  startTime : Option Nat
  deriving Repr, DecidableEq

/-- The whole global `state` object plus modeled UI state and the
instrumentation fields listed in the header comment. -/
structure AppState where
  websocket : Option WSocket
  pipelineResolve : Option Nat
  recording : RecordingState
  audio : AudioState
  vad : VadState
  -- modeled UI state
  transcript : String
  response : String
  sttStreaming : Bool
  llmStreaming : Bool
  status : Status
  recordBtnDisabled : Bool
  handsFreeChecked : Bool
  -- instrumentation of externally visible effects
  outbound : List Nat
  settles : List (Nat × Bool)
  plays : List Chunk
  created : Nat
  framesRequested : Nat
  pipelineRuns : Nat
  runRejected : List Nat
  deriving Repr, DecidableEq

/-- The initial `state` object literal (lines 47-83), with all
instrumentation counters at zero. -/
def initialState : AppState :=
  { websocket := none
    pipelineResolve := none
    recording := { mediaRecorder := none, chunks := [], isActive := false,
                   startTime := none }
    audio := { queue := [], isPlaying := false, currentIndex := 0 }
    vad := { isEnabled := false, isProcessing := false, isSpeaking := false,
             silenceStart := none, speechStart := none, stream := none,
             mediaRecorder := none, audioChunks := [], audioContext := none,
             analyser := none, animationFrame := none }
    transcript := ""
    response := ""
    sttStreaming := false
    llmStreaming := false
    status := Status.ready
    recordBtnDisabled := false
    handsFreeChecked := false
    outbound := []
    settles := []
    plays := []
    created := 0
    framesRequested := 0
    pipelineRuns := 0
    runRejected := [] }

/-! ## 5. Audio Queue (lines 169-213) -/

/-- `AudioQueue.playNext` (lines 180-205).  If the queue is empty the playing
flag drops and, in hands-free mode with no pipeline running, the status
returns to READY.  Otherwise the oldest chunk is shifted off and a playback
attempt on it starts (recorded in `plays`). -/
def playNext (s : AppState) : AppState :=
  match s.audio.queue with
  | [] =>
    { s with audio.isPlaying := false
             status := if s.vad.isEnabled ∧ ¬s.vad.isProcessing
                       then Status.ready else s.status }
  | c :: rest =>
    { s with audio.isPlaying := true
             audio.queue := rest
             plays := s.plays ++ [c] }

/-- `AudioQueue.add` (lines 170-178): decode, push `{url, index, sentence}`,
and if nothing is playing, begin playback immediately. -/
def audioAdd (audio : String) (index : Nat) (sentence : String)
    (s : AppState) : AppState :=
  let s := { s with audio.queue := s.audio.queue ++ [⟨audio, index, sentence⟩] }
  if s.audio.isPlaying then s else playNext s

/-- `AudioQueue.reset` (lines 207-212). -/
def audioReset (s : AppState) : AppState :=
  { s with audio.queue := []
           audio.isPlaying := false
           audio.currentIndex := 0 }

/-- The audio player's `ended` event listener (line 216): advance the
queue. -/
def audioEnded (s : AppState) : AppState := playNext s

/-! ## 7. WebSocket (lines 424-448) -/

/-- The `state.websocket?.readyState === WebSocket.OPEN` test of line 427. -/
def wsIsOpen (s : AppState) : Bool :=
  match s.websocket with
  | some w => w.ready = ReadyState.opened
  | none => false

/-- The synchronous part of `WebSocketManager.connect` (lines 425-447): the
promise executor runs immediately.  If the held socket is OPEN the promise
resolves at once with it (second component `true`); otherwise a *new*
WebSocket is constructed (bumping `created`), stored into `state.websocket`
in CONNECTING state, and the promise stays pending (second component
`false`) until that socket's `onopen` / `onerror` fires. -/
def connectSync (s : AppState) : AppState × Bool :=
  if wsIsOpen s then
    (s, true)
  else
    ({ s with websocket := some ⟨s.created, ReadyState.connecting⟩
              created := s.created + 1 }, false)

/-! ## 8. Pipeline (lines 542-566) -/

/-- `Pipeline.run` (lines 542-566), from the point where the awaited
`WebSocketManager.connect()` has resolved (init() pre-connects, so in the
modeled runs the socket is already OPEN and `connect` resolves on the spot;
if it is not open, the awaited connect here fails and the catch block
rejects the run's promise without sending, recorded in `runRejected`).
On the success path the executor stores `resolve` into
`state.pipelineResolve` — overwriting whatever resolver was there — and
sends the outbound `audio` message.  Note there is no check of
`state.pipelineResolve` before the overwrite.  Each invocation is numbered
by `pipelineRuns`; that number identifies the promise/resolver it creates
in `pipelineResolve`, `outbound`, `settles` and `runRejected`. -/
def pipelineRun (s : AppState) : AppState :=
  let id := s.pipelineRuns
  if wsIsOpen s then
    { s with pipelineRuns := id + 1
             pipelineResolve := some id
             outbound := s.outbound ++ [id] }
  else
    { s with pipelineRuns := id + 1
             runRejected := s.runRejected ++ [id] }

/-! ## 6. VAD (lines 227-418) -/

/-- The `requestAnimationFrame(() => this.monitorVolume())` calls of lines
307 and 319: stores a frame handle and counts the request. -/
def requestFrame (s : AppState) : AppState :=
  { s with framesRequested := s.framesRequested + 1
           vad.animationFrame := some s.framesRequested }

/-- `VAD.onSpeechDetected` (lines 322-339). -/
def onSpeechDetected (now : Nat) (s : AppState) : AppState :=
  let s :=
    if ¬s.vad.isSpeaking then
      let s := { s with vad.isSpeaking := true
                        vad.speechStart := some now
                        vad.silenceStart := none
                        vad.audioChunks := [] }
      if s.vad.mediaRecorder = some RecorderState.inactive then
        { s with vad.mediaRecorder := some RecorderState.recording
                 recording.startTime := some now
                 status := Status.recording }
      else s
    else s
  { s with vad.silenceStart := none }

/-- `VAD.onSilenceDetected` (lines 341-367).  Stopping the recorder (line
357) flips its state to `inactive`; the platform then fires the recorder's
`onstop` callback (`VAD.onRecordingStop`) as a separate event. -/
def onSilenceDetected (now : Nat) (s : AppState) : AppState :=
  if s.vad.isSpeaking then
    let start := s.vad.silenceStart.getD now
    let s := { s with vad.silenceStart := some start }
    if CONFIG.silenceTimeout ≤ now - start then
      let s := { s with vad.isSpeaking := false }
      let s :=
        if s.vad.mediaRecorder = some RecorderState.recording then
          { s with vad.mediaRecorder := some RecorderState.inactive }
        else s
      { s with vad.silenceStart := none, vad.speechStart := none }
    else s
  else s

/-- `VAD.monitorVolume` (lines 292-320), one tick.  The analyser's byte
frequency data and the derived `volumePercent` (lines 295-301, a pure
function of external device data feeding only the threshold comparison and
the volume-bar width) are abstracted into the input `volumePercent`.
`now` is `Date.now()` at line 311. -/
def monitorVolume (now volumePercent : Nat) (s : AppState) : AppState :=
  if s.vad.analyser = none ∨ ¬s.vad.isEnabled then
    s
  else if s.vad.isProcessing ∨ s.audio.isPlaying then
    requestFrame s
  else
    let s :=
      if CONFIG.volumeThreshold < volumePercent then
        onSpeechDetected now s
      else
        onSilenceDetected now s
    requestFrame s

/-- The hands-free recorder's `ondataavailable` handler (lines 243-245):
push the device-delivered chunk (represented by its byte size) if
non-empty. -/
def vadDataAvailable (size : Nat) (s : AppState) : AppState :=
  if 0 < size then
    { s with vad.audioChunks := s.vad.audioChunks ++ [size] }
  else s

/-- `VAD.onRecordingStop` (lines 369-407).  The blob's size is the sum of
the captured chunk sizes.  An early return runs the `finally` block
(`isProcessing := false`) at once; after a successful send the `await
Pipeline.run` suspends, so the success continuation and the `finally` run
only when the pipeline later settles (that continuation touches only
status-display state and is outside this synchronous step); a rejected run
resumes the catch block immediately, which restores READY status, and then
the `finally` runs. -/
def onRecordingStop (s : AppState) : AppState :=
  if s.vad.audioChunks = [] ∨ s.vad.isProcessing then
    { s with vad.audioChunks := [] }
  else
    let blobSize := s.vad.audioChunks.sum
    let s := { s with vad.audioChunks := [], vad.isProcessing := true }
    if blobSize < CONFIG.minAudioSize then
      { s with vad.isProcessing := false }
    else
      let before := s.runRejected.length
      let s := pipelineRun s
      if before < s.runRejected.length then
        { s with status := Status.ready, vad.isProcessing := false }
      else
        s

/-- `VAD.start` (lines 228-261).  The three fallible platform acquisitions
are `getUserMedia` (line 230), the audio-context/analyser setup (lines
233-239) and the `MediaRecorder` construction (line 242); the Booleans say
whether each succeeds (throwing jumps to the catch block at lines 256-260,
which only logs, unchecks the toggle and clears `isEnabled` — it releases
nothing).  On full success monitoring starts (line 249) and the record
button is disabled (line 252).  `now` and `volumePercent` feed the initial
`monitorVolume` tick. -/
def vadStart (micOk ctxOk recOk : Bool) (now volumePercent : Nat)
    (s : AppState) : AppState :=
  if ¬micOk then
    { s with handsFreeChecked := false, vad.isEnabled := false }
  else
    let s := { s with vad.stream := some 1 }
    if ¬ctxOk then
      { s with handsFreeChecked := false, vad.isEnabled := false }
    else
      let s := { s with vad.audioContext := some 1, vad.analyser := some 1 }
      if ¬recOk then
        { s with handsFreeChecked := false, vad.isEnabled := false }
      else
        let s := { s with vad.mediaRecorder := some RecorderState.inactive }
        let s := monitorVolume now volumePercent s
        { s with recordBtnDisabled := true }

/-! ## Protocol message dispatch (lines 450-535) -/

/-- The parsed JSON of an inbound message: its `type` tag plus the payload
fields the handler reads.  Fields a given message kind does not carry
default to the empty value. -/
structure MsgData where
  type : String
  content : String := ""
  full_transcript : String := ""
  audio : String := ""
  index : Nat := 0
  sentence : String := ""
  message : String := ""
  deriving Repr, DecidableEq

/-- `WebSocketManager.handleMessage` (lines 450-535): the single inbound
router, a switch on `data.type` with no default case.  The `pipeline_done`
and `error` arms settle the pending promise only when
`state.pipelineResolve` is non-null, then null it; the settlement is
recorded in `settles`. -/
def handleMessage (d : MsgData) (s : AppState) : AppState :=
  match d.type with
  | "stt_start" =>
    { s with transcript := "", sttStreaming := true,
             status := Status.processing }
  | "stt_segment" =>
    { s with transcript := s.transcript ++ d.content ++ " " }
  | "stt_done" =>
    { s with sttStreaming := false, transcript := d.full_transcript }
  | "llm_start" =>
    { s with response := "", llmStreaming := true,
             status := Status.processing }
  | "llm_token" =>
    { s with response := s.response ++ d.content }
  | "llm_done" =>
    { s with llmStreaming := false }
  | "tts_start" =>
    { audioReset s with status := Status.processing }
  | "tts_chunk" =>
    audioAdd d.audio d.index d.sentence s
  | "tts_done" => s
  | "pipeline_done" =>
    let s := { s with sttStreaming := false, llmStreaming := false,
                      status := Status.ready,
                      recordBtnDisabled := if s.vad.isEnabled
                                           then s.recordBtnDisabled else false }
    match s.pipelineResolve with
    | some id =>
      { s with settles := s.settles ++ [(id, true)], pipelineResolve := none }
    | none => s
  | "error" =>
    let s := { s with sttStreaming := false, llmStreaming := false,
                      status := Status.ready,
                      recordBtnDisabled := if s.vad.isEnabled
                                           then s.recordBtnDisabled else false }
    match s.pipelineResolve with
    | some id =>
      { s with settles := s.settles ++ [(id, false)], pipelineResolve := none }
    | none => s
  | _ => s

/-- `Recording.process` (lines 628-637): manual mode hands the captured blob
straight to `Pipeline.run`, with no size or duration check; the catch block
(reached when the run's promise rejects) restores READY status and
re-enables the record button. -/
def recordingProcess (s : AppState) : AppState :=
  let before := s.runRejected.length
  let s := pipelineRun s
  if before < s.runRejected.length then
    { s with status := Status.ready, recordBtnDisabled := false }
  else s

/-! ## Event model for the playback queue

The queue is driven by two external events: a `tts_chunk` arrival
(`AudioQueue.add`) and the audio player's `ended` callback
(`AudioQueue.playNext`).  A run of the queue with no `reset()` in between is
a fold of these events. -/

/-- An external playback-queue event. -/
inductive QEvent where
  | addE (c : Chunk)
  | endedE
  deriving Repr, DecidableEq

/-- One queue event applied to the state. -/
def qstep (s : AppState) : QEvent → AppState
  | QEvent.addE c => audioAdd c.url c.index c.sentence s
  | QEvent.endedE => audioEnded s

/-- The chunks enqueued by a list of queue events, in order. -/
def addsOf : List QEvent → List Chunk
  | [] => []
  | QEvent.addE c :: es => c :: addsOf es
  | QEvent.endedE :: es => addsOf es

/-- The playback queue's basic consistency invariant: when the playing flag
is down, no chunk is waiting in the queue. -/
def QueueInv (s : AppState) : Prop :=
  s.audio.isPlaying = false → s.audio.queue = []

/-! ## Concrete states for witnesses and counterexamples -/

/-- A state whose WebSocket is already open, as after `init()`'s successful
pre-connect. -/
def wsOpenState : AppState :=
  { initialState with websocket := some ⟨0, ReadyState.opened⟩ }

/-- A state in hands-free mode with all VAD resources acquired (as after a
successful `VAD.start`) and the socket open. -/
def vadActiveState : AppState :=
  { initialState with
    websocket := some ⟨0, ReadyState.opened⟩
    vad.isEnabled := true
    vad.stream := some 1
    vad.audioContext := some 1
    vad.analyser := some 1
    vad.mediaRecorder := some RecorderState.inactive }

/-- Hands-free trace, step 1: at t=0 the volume is 50 (above the threshold
15), so speech starts and the recorder starts. -/
def c2AfterSpeech : AppState := monitorVolume 0 50 vadActiveState

/-- Hands-free trace, step 2: the device delivers a 1500-byte chunk. -/
def c2AfterData : AppState := vadDataAvailable 1500 c2AfterSpeech

/-- Hands-free trace, step 3: at t=100 the volume is 0, so the speech run
is over after 100 ms and the silence timer starts. -/
def c2AfterSilence : AppState := monitorVolume 100 0 c2AfterData

/-- Hands-free trace, step 4: at t=1100 the 1000 ms silence timeout has
elapsed, so the recorder is stopped. -/
def c2AfterTimeout : AppState := monitorVolume 1100 0 c2AfterSilence

/-- Hands-free trace, step 5: the recorder's `onstop` callback fires. -/
def c2Final : AppState := onRecordingStop c2AfterTimeout

/-- A state with a pending pipeline request (request number 0). -/
def pendingState : AppState :=
  { wsOpenState with pipelineResolve := some 0, pipelineRuns := 1,
                     outbound := [0] }

/-- A hands-free state with a captured buffer of 500 bytes, below the
1000-byte minimum. -/
def smallChunkState : AppState :=
  { vadActiveState with vad.audioChunks := [500] }

/-- A demonstration run of the playback queue: two chunks enqueued, then
the two `ended` callbacks. -/
def qDemoEvents : List QEvent :=
  [QEvent.addE ⟨"a", 0, "x"⟩, QEvent.addE ⟨"b", 1, "y"⟩,
   QEvent.endedE, QEvent.endedE]

/-! ## Helper lemmas -/

theorem addsOf_cons (e : QEvent) (es : List QEvent) :
    addsOf (e :: es) = addsOf [e] ++ addsOf es := by
  cases e <;> simp [addsOf]

/-- One queue event preserves the invariant and extends
`plays ++ queue` by exactly the enqueued chunks: playback attempts happen
one at a time, in FIFO order, with nothing lost or duplicated. -/
theorem qstep_spec (s : AppState) (e : QEvent) (h : QueueInv s) :
    QueueInv (qstep s e) ∧
    (qstep s e).plays ++ (qstep s e).audio.queue
      = s.plays ++ s.audio.queue ++ addsOf [e] := by
  cases e with
  | addE c =>
    by_cases hp : s.audio.isPlaying = true
    · simp [qstep, audioAdd, hp, QueueInv, addsOf]
    · have hq : s.audio.queue = [] := h (by simpa using hp)
      simp [qstep, audioAdd, playNext, hp, hq, QueueInv, addsOf]
  | endedE =>
    cases hq : s.audio.queue with
    | nil => simp [qstep, audioEnded, playNext, hq, QueueInv, addsOf]
    | cons c rest => simp [qstep, audioEnded, playNext, hq, QueueInv, addsOf]

/-- Folding a list of queue events preserves the invariant and appends
exactly the enqueued chunks to `plays ++ queue`. -/
theorem qrun_spec (evs : List QEvent) (s : AppState) (h : QueueInv s) :
    QueueInv (List.foldl qstep s evs) ∧
    (List.foldl qstep s evs).plays ++ (List.foldl qstep s evs).audio.queue
      = s.plays ++ s.audio.queue ++ addsOf evs := by
  induction evs generalizing s with
  | nil => simpa [addsOf] using h
  | cons e es ih =>
    obtain ⟨h1, h2⟩ := qstep_spec s e h
    obtain ⟨h3, h4⟩ := ih (qstep s e) h1
    refine ⟨by simpa using h3, ?_⟩
    rw [List.foldl_cons] at *
    rw [h4, h2, addsOf_cons e es, List.append_assoc]

theorem requestFrame_vad_fields (s : AppState) :
    (requestFrame s).vad.stream = s.vad.stream ∧
    (requestFrame s).vad.audioContext = s.vad.audioContext ∧
    (requestFrame s).vad.analyser = s.vad.analyser ∧
    (requestFrame s).vad.mediaRecorder = s.vad.mediaRecorder ∧
    (requestFrame s).framesRequested = s.framesRequested + 1 := by
  simp [requestFrame]

theorem onSpeechDetected_vad_fields (now : Nat) (s : AppState) :
    (onSpeechDetected now s).vad.stream = s.vad.stream ∧
    (onSpeechDetected now s).vad.audioContext = s.vad.audioContext ∧
    (onSpeechDetected now s).vad.analyser = s.vad.analyser ∧
    (onSpeechDetected now s).vad.mediaRecorder.isSome
      = s.vad.mediaRecorder.isSome ∧
    (onSpeechDetected now s).framesRequested = s.framesRequested := by
  by_cases h1 : s.vad.isSpeaking = true
  · simp [onSpeechDetected, h1]
  · by_cases h2 : s.vad.mediaRecorder = some RecorderState.inactive <;>
      simp [onSpeechDetected, h1, h2]

theorem onSilenceDetected_vad_fields (now : Nat) (s : AppState) :
    (onSilenceDetected now s).vad.stream = s.vad.stream ∧
    (onSilenceDetected now s).vad.audioContext = s.vad.audioContext ∧
    (onSilenceDetected now s).vad.analyser = s.vad.analyser ∧
    (onSilenceDetected now s).vad.mediaRecorder.isSome
      = s.vad.mediaRecorder.isSome ∧
    (onSilenceDetected now s).framesRequested = s.framesRequested := by
  by_cases h1 : s.vad.isSpeaking = true
  · by_cases h2 : CONFIG.silenceTimeout ≤ now - s.vad.silenceStart.getD now
    · by_cases h3 : s.vad.mediaRecorder = some RecorderState.recording <;>
        simp [onSilenceDetected, h1, h2, h3]
    · simp [onSilenceDetected, h1, h2]
  · simp [onSilenceDetected, h1]

theorem monitorVolume_vad_fields (now vol : Nat) (s : AppState) :
    (monitorVolume now vol s).vad.stream = s.vad.stream ∧
    (monitorVolume now vol s).vad.audioContext = s.vad.audioContext ∧
    (monitorVolume now vol s).vad.analyser = s.vad.analyser ∧
    (monitorVolume now vol s).vad.mediaRecorder.isSome
      = s.vad.mediaRecorder.isSome := by
  by_cases ha : s.vad.analyser = none
  · simp [monitorVolume, ha]
  · by_cases he : s.vad.isEnabled = true
    · by_cases hp : s.vad.isProcessing = true
      · simp [monitorVolume, ha, he, hp, requestFrame]
      · by_cases hq : s.audio.isPlaying = true
        · simp [monitorVolume, ha, he, hp, hq, requestFrame]
        · by_cases h2 : CONFIG.volumeThreshold < vol
          · have h := onSpeechDetected_vad_fields now s
            simp [monitorVolume, ha, he, hp, hq, h2, requestFrame]
            tauto
          · have h := onSilenceDetected_vad_fields now s
            simp [monitorVolume, ha, he, hp, hq, h2, requestFrame]
            tauto
    · simp [monitorVolume, he]

/-! ## Claims -/

/-- C1, counterexample: `Pipeline.run` performs no Busy check.  Starting
from an open socket, a first `run` leaves request 0 pending; a second `run`
while it is pending does not fail — it sends a second outbound audio
message (`outbound = [0, 1]`, nothing rejected) and overwrites the pending
resolver, and the next `pipeline_done` settles only request 1, so request
0 never settles: the first request's outcome is affected. -/
theorem pipeline_run_no_busy_cex :
    (pipelineRun wsOpenState).pipelineResolve = some 0 ∧
    (pipelineRun wsOpenState).outbound = [0] ∧
    (pipelineRun (pipelineRun wsOpenState)).outbound = [0, 1] ∧
    (pipelineRun (pipelineRun wsOpenState)).runRejected = [] ∧
    (pipelineRun (pipelineRun wsOpenState)).pipelineResolve = some 1 ∧
    (handleMessage { type := "pipeline_done" }
        (pipelineRun (pipelineRun wsOpenState))).settles = [(1, true)] ∧
    (0, true) ∉ (handleMessage { type := "pipeline_done" }
        (pipelineRun (pipelineRun wsOpenState))).settles ∧
    (0, false) ∉ (handleMessage { type := "pipeline_done" }
        (pipelineRun (pipelineRun wsOpenState))).settles := by
  decide

/-- C1, amended: `Pipeline.run` does not enforce single-flight.  A call
made while request `id` is still pending (and the socket is open) sends
another outbound audio message and replaces the pending resolver with the
new request's, so the subsequent terminal event settles only the new
request and the earlier call's promise never settles.  (Single-flight is
enforced only at the call sites: hands-free capture is skipped while
`vad.isProcessing` and the manual record button is disabled while
processing.) -/
theorem pipeline_run_overwrites_pending (s : AppState) (id : Nat)
    (hopen : wsIsOpen s = true) (hp : s.pipelineResolve = some id) :
    (pipelineRun s).outbound = s.outbound ++ [s.pipelineRuns] ∧
    (pipelineRun s).pipelineResolve = some s.pipelineRuns ∧
    (handleMessage { type := "pipeline_done" } (pipelineRun s)).settles
      = s.settles ++ [(s.pipelineRuns, true)] := by
  refine ⟨?_, ?_, ?_⟩ <;> simp [pipelineRun, hopen, handleMessage]

/-- C1, witness for the amended theorem at `pendingState` (request 0
pending). -/
theorem pipeline_run_overwrites_pending_witness :
    (pipelineRun pendingState).outbound
      = pendingState.outbound ++ [pendingState.pipelineRuns] ∧
    (pipelineRun pendingState).pipelineResolve
      = some pendingState.pipelineRuns ∧
    (handleMessage { type := "pipeline_done" }
        (pipelineRun pendingState)).settles
      = pendingState.settles ++ [(pendingState.pipelineRuns, true)] :=
  pipeline_run_overwrites_pending pendingState 0 rfl rfl

/-- C2, counterexample: the minimum speech duration is never checked.  In
hands-free mode, speech runs from t=0 to t=100 only (100 ms, below the
300 ms `minSpeechDuration`), the silence timeout fires at t=1100, and the
1500-byte capture is forwarded: `Pipeline.run` is invoked and the outbound
audio message is sent. -/
theorem short_utterance_forwarded_cex :
    c2AfterSpeech.vad.speechStart = some 0 ∧
    c2AfterSpeech.vad.mediaRecorder = some RecorderState.recording ∧
    c2AfterSilence.vad.silenceStart = some 100 ∧
    100 - 0 < CONFIG.minSpeechDuration ∧
    c2Final.pipelineRuns = 1 ∧
    c2Final.outbound = [0] := by
  decide

/-- C2, amended: in hands-free mode an utterance whose captured byte size
is below `minAudioSize` is discarded by `VAD.onRecordingStop` without
invoking `Pipeline.run` and without sending anything, and the processing
flag is restored; no duration check is performed, and manual-mode capture
(`Recording.process`) is not filtered at all. -/
theorem below_min_size_dropped (s : AppState)
    (hne : s.vad.audioChunks ≠ []) (hpr : s.vad.isProcessing = false)
    (hsz : s.vad.audioChunks.sum < CONFIG.minAudioSize) :
    (onRecordingStop s).pipelineRuns = s.pipelineRuns ∧
    (onRecordingStop s).outbound = s.outbound ∧
    (onRecordingStop s).vad.isProcessing = false := by
  simp [onRecordingStop, hne, hpr, hsz]

/-- C2, witness for the amended theorem: a 500-byte capture is dropped. -/
theorem below_min_size_dropped_witness :
    (onRecordingStop smallChunkState).pipelineRuns
      = smallChunkState.pipelineRuns ∧
    (onRecordingStop smallChunkState).outbound = smallChunkState.outbound ∧
    (onRecordingStop smallChunkState).vad.isProcessing = false :=
  below_min_size_dropped smallChunkState (by decide) rfl (by decide)

/-- C3, counterexample: two `connect()` calls before the first attempt
opens construct two underlying WebSockets.  The first call creates socket
0 (still CONNECTING, promise pending); the second call, seeing a non-OPEN
socket, constructs socket 1 and replaces the held reference — `created`
reaches 2, not 1. -/
theorem connect_duplicate_socket_cex :
    (connectSync initialState).2 = false ∧
    (connectSync initialState).1.websocket
      = some ⟨0, ReadyState.connecting⟩ ∧
    (connectSync (connectSync initialState).1).1.created = 2 ∧
    (connectSync (connectSync initialState).1).1.websocket
      = some ⟨1, ReadyState.connecting⟩ := by
  decide

/-- C3, amended: `connect()` reuses the held socket only when it is
already OPEN (resolving immediately with it); whenever the socket is not
OPEN — including while a previous attempt is still CONNECTING — it
constructs a fresh WebSocket and replaces the held reference, so
concurrent callers do not share one pending attempt. -/
theorem connect_reuse_behavior (s : AppState) :
    (wsIsOpen s = true → connectSync s = (s, true)) ∧
    (wsIsOpen s = false →
      (connectSync s).1.created = s.created + 1 ∧
      (connectSync s).1.websocket
        = some ⟨s.created, ReadyState.connecting⟩ ∧
      (connectSync s).2 = false) := by
  constructor <;> intro h <;> simp [connectSync, h]

/-- C3, witness for the amended theorem: an open socket is reused; from a
fresh state a socket is constructed. -/
theorem connect_reuse_behavior_witness :
    connectSync wsOpenState = (wsOpenState, true) ∧
    (connectSync initialState).1.created = initialState.created + 1 :=
  ⟨(connect_reuse_behavior wsOpenState).1 rfl,
   ((connect_reuse_behavior initialState).2 rfl).1⟩

/-- C4: with a request pending, any two terminal events in a row
(`pipeline_done`/`error` in any combination) settle the pending request
exactly once — the settlement log grows by exactly one entry — and leave
the resolver null; the second event is processed without settling again
(and the handler is a total function, so nothing is raised). -/
theorem terminal_event_settles_once (s : AppState) (d1 d2 : MsgData)
    (h1 : d1.type = "pipeline_done" ∨ d1.type = "error")
    (h2 : d2.type = "pipeline_done" ∨ d2.type = "error")
    (hp : s.pipelineResolve.isSome = true) :
    (handleMessage d2 (handleMessage d1 s)).settles.length
      = s.settles.length + 1 ∧
    (handleMessage d2 (handleMessage d1 s)).pipelineResolve = none := by
  cases hid : s.pipelineResolve with
  | none => rw [hid] at hp; simp at hp
  | some id =>
    rcases h1 with h1 | h1 <;> rcases h2 with h2 | h2 <;>
      simp [handleMessage, h1, h2, hid]

/-- C4, witness: `pipeline_done` then `error` on `pendingState`. -/
theorem terminal_event_settles_once_witness :
    (handleMessage { type := "error" }
        (handleMessage { type := "pipeline_done" } pendingState)).settles.length
      = pendingState.settles.length + 1 ∧
    (handleMessage { type := "error" }
        (handleMessage { type := "pipeline_done" } pendingState)).pipelineResolve
      = none :=
  terminal_event_settles_once pendingState { type := "pipeline_done" }
    { type := "error" } (Or.inl rfl) (Or.inr rfl) rfl

/-- C5: a message whose `type` tag is none of the eleven recognized event
kinds falls through the switch (which has no default case): the state —
session, VAD, playback queue and all modeled UI fields — is returned
unchanged, and nothing is raised (the handler is total). -/
theorem unknown_message_ignored (d : MsgData) (s : AppState)
    (h : d.type ∉ ["stt_start", "stt_segment", "stt_done", "llm_start",
        "llm_token", "llm_done", "tts_start", "tts_chunk", "tts_done",
        "pipeline_done", "error"]) :
    handleMessage d s = s := by
  simp only [List.mem_cons, List.not_mem_nil, or_false, not_or] at h
  obtain ⟨n1, n2, n3, n4, n5, n6, n7, n8, n9, n10, n11⟩ := h
  unfold handleMessage
  split <;> simp_all

/-- C5, witness: a `bogus` message leaves an active hands-free state
untouched. -/
theorem unknown_message_ignored_witness :
    handleMessage { type := "bogus" } vadActiveState = vadActiveState :=
  unknown_message_ignored { type := "bogus" } vadActiveState (by decide)

/-- C6: starting from an idle, empty queue, for any sequence of
enqueue/ended events with no `reset()` in between: once the playing flag
is down again every enqueued chunk has had exactly one playback attempt,
in FIFO enqueue order (`plays` extends by exactly the enqueued chunks, in
order — attempts are strictly sequential since each `playNext` starts at
most one); after the last chunk's `ended` callback the queue is idle
(playing flag false); and an enqueue while nothing is playing starts a
playback attempt on that chunk immediately. -/
theorem playback_queue_fifo (evs : List QEvent) (s : AppState) (c : Chunk)
    (hq : s.audio.queue = []) (hp : s.audio.isPlaying = false) :
    ((List.foldl qstep s evs).audio.isPlaying = false →
       (List.foldl qstep s evs).plays = s.plays ++ addsOf evs) ∧
    ((List.foldl qstep s evs).audio.queue = [] →
       (audioEnded (List.foldl qstep s evs)).audio.isPlaying = false) ∧
    ((List.foldl qstep s evs).audio.isPlaying = false →
       (qstep (List.foldl qstep s evs) (QEvent.addE c)).audio.isPlaying
         = true ∧
       (qstep (List.foldl qstep s evs) (QEvent.addE c)).plays
         = (List.foldl qstep s evs).plays ++ [c]) := by
  have hinv : QueueInv s := fun _ => hq
  obtain ⟨h1, h2⟩ := qrun_spec evs s hinv
  refine ⟨?_, ?_, ?_⟩
  · intro hstop
    have hq2 : (List.foldl qstep s evs).audio.queue = [] := h1 hstop
    rw [hq2, List.append_nil, hq, List.append_nil] at h2
    exact h2
  · intro hq2
    simp [audioEnded, playNext, hq2]
  · intro hstop
    have hq2 : (List.foldl qstep s evs).audio.queue = [] := h1 hstop
    constructor <;> simp [qstep, audioAdd, playNext, hq2, hstop]

/-- C6, witness: two chunks enqueued then two `ended` callbacks — both
chunks play, in order, and the queue ends idle. -/
theorem playback_queue_fifo_witness :
    (List.foldl qstep initialState qDemoEvents).plays
      = initialState.plays ++ addsOf qDemoEvents ∧
    (List.foldl qstep initialState qDemoEvents).audio.isPlaying = false :=
  ⟨(playback_queue_fifo qDemoEvents initialState ⟨"c", 2, "z"⟩ rfl rfl).1
     (by decide),
   by decide⟩

/-- C7: `AudioQueue.reset()` on any state — including during active
playback — empties the queue, drops the playing flag, starts no new
playback attempt, and raises nothing (it is a total function); when the
interrupted chunk's `ended` callback later fires, no further attempt
starts and the flag stays false. -/
theorem audio_reset_clears (s : AppState) :
    (audioReset s).audio.queue = [] ∧
    (audioReset s).audio.isPlaying = false ∧
    (audioReset s).plays = s.plays ∧
    (audioEnded (audioReset s)).audio.isPlaying = false ∧
    (audioEnded (audioReset s)).plays = s.plays := by
  simp [audioReset, audioEnded, playNext]

/-- C8: whenever a `monitorVolume` tick runs with hands-free enabled and
the analyser initialized, it requests exactly one next animation frame —
on the busy early-return branch (pipeline processing or audio playing)
just as on the speech and silence branches — so monitoring never silently
stops while enabled. -/
theorem monitor_tick_reschedules_once (now vol : Nat) (s : AppState)
    (ha : s.vad.analyser ≠ none) (he : s.vad.isEnabled = true) :
    (monitorVolume now vol s).framesRequested = s.framesRequested + 1 := by
  by_cases hp : s.vad.isProcessing = true
  · simp [monitorVolume, ha, he, hp, requestFrame]
  · by_cases hq : s.audio.isPlaying = true
    · simp [monitorVolume, ha, he, hp, hq, requestFrame]
    · by_cases h2 : CONFIG.volumeThreshold < vol
      · have h := onSpeechDetected_vad_fields now s
        simp [monitorVolume, ha, he, hp, hq, h2, requestFrame, h.2.2.2.2]
      · have h := onSilenceDetected_vad_fields now s
        simp [monitorVolume, ha, he, hp, hq, h2, requestFrame, h.2.2.2.2]

/-- C8, witness: one tick on the active hands-free state requests exactly
one frame. -/
theorem monitor_tick_reschedules_once_witness :
    (monitorVolume 0 50 vadActiveState).framesRequested
      = vadActiveState.framesRequested + 1 :=
  monitor_tick_reschedules_once 0 50 vadActiveState (by decide) rfl

/-- C9, counterexample: acquisition is not all-or-nothing.  If
`getUserMedia` succeeds but the audio-analysis setup then throws, the
catch block disables hands-free mode and unchecks the toggle but releases
nothing: the already-acquired microphone stream is still held. -/
theorem vad_start_partial_retention_cex :
    (vadStart true false true 0 0 initialState).vad.isEnabled = false ∧
    (vadStart true false true 0 0 initialState).handsFreeChecked = false ∧
    (vadStart true false true 0 0 initialState).vad.stream = some 1 := by
  decide

/-- C9, amended: every hands-free startup failure disables hands-free mode
and unchecks the toggle (the error is reported); a `getUserMedia` failure
allocates nothing, but a failure in a later setup step retains what was
already allocated (the stream; also the audio context and analyser if the
recorder construction is what fails) — and on success all four resources
are initialized. -/
theorem vad_start_failure_behavior (s : AppState) (now vol : Nat) :
    ((vadStart false true true now vol s).vad.isEnabled = false ∧
     (vadStart false true true now vol s).handsFreeChecked = false ∧
     (vadStart false true true now vol s).vad.stream = s.vad.stream ∧
     (vadStart false true true now vol s).vad.audioContext
       = s.vad.audioContext ∧
     (vadStart false true true now vol s).vad.analyser = s.vad.analyser ∧
     (vadStart false true true now vol s).vad.mediaRecorder
       = s.vad.mediaRecorder) ∧
    ((vadStart true false true now vol s).vad.isEnabled = false ∧
     (vadStart true false true now vol s).handsFreeChecked = false ∧
     (vadStart true false true now vol s).vad.stream = some 1) ∧
    ((vadStart true true false now vol s).vad.isEnabled = false ∧
     (vadStart true true false now vol s).handsFreeChecked = false ∧
     (vadStart true true false now vol s).vad.stream = some 1 ∧
     (vadStart true true false now vol s).vad.audioContext = some 1 ∧
     (vadStart true true false now vol s).vad.analyser = some 1) ∧
    ((vadStart true true true now vol s).vad.stream = some 1 ∧
     (vadStart true true true now vol s).vad.audioContext = some 1 ∧
     (vadStart true true true now vol s).vad.analyser = some 1 ∧
     (vadStart true true true now vol s).vad.mediaRecorder.isSome
       = true) := by
  refine ⟨by simp [vadStart], by simp [vadStart], by simp [vadStart], ?_⟩
  have hred : vadStart true true true now vol s
      = { monitorVolume now vol
            { s with vad.stream := some 1, vad.audioContext := some 1,
                     vad.analyser := some 1,
                     vad.mediaRecorder := some RecorderState.inactive }
          with recordBtnDisabled := true } := by
    simp [vadStart]
  have h := monitorVolume_vad_fields now vol
      { s with vad.stream := some 1, vad.audioContext := some 1,
               vad.analyser := some 1,
               vad.mediaRecorder := some RecorderState.inactive }
  rw [hred]
  simp at h ⊢
  tauto

/-- C10: an `stt_done` message sets the transcript display to exactly its
`full_transcript` payload, replacing — not appending to — whatever partial
text earlier `stt_segment` events accumulated. -/
theorem stt_done_replaces_transcript (d : MsgData) (s : AppState)
    (h : d.type = "stt_done") :
    (handleMessage d s).transcript = d.full_transcript := by
  simp [handleMessage, h]

/-- C10, witness: after a partial segment, `stt_done` replaces the
accumulated text with the full transcript. -/
theorem stt_done_replaces_transcript_witness :
    (handleMessage { type := "stt_done", full_transcript := "final text" }
      (handleMessage { type := "stt_segment", content := "partial" }
        initialState)).transcript = "final text" :=
  stt_done_replaces_transcript
    { type := "stt_done", full_transcript := "final text" }
    (handleMessage { type := "stt_segment", content := "partial" }
      initialState)
    rfl

end VoiceApp
